import Mathlib

/-!
Verification of the hmmscan/hmmsearch subprocess layer of antismash
(`antismash/common/subprocessing/hmmscan.py` and
`antismash/common/subprocessing/hmmsearch.py`).

The Python sources are shallowly embedded below.  External effects (process
launches, file writes, the embedded pyhmmer "shadow" search, the SearchIO
result parser) are modelled by explicit environment records supplying the
outcome of each effectful step, and every run function additionally returns
the ordered trace of effect events it performed, so that temporal claims
(what launched, what ran, in which circumstances) can be stated.
-/

namespace Antismash

/-! ### String primitives mirroring the Python string operations.

These operate on the character list underlying a `String` so that concrete
witnesses evaluate by `decide`/`rfl`. -/

/-- Characters removed by Python `str.strip()` with no arguments. -/
def isPySpace (c : Char) : Bool :=
  c = ' ' || c = '\t' || c = '\n' || c = '\r' || c = '\x0b' || c = '\x0c'

/-- Python `str.strip()`: remove leading and trailing whitespace. -/
def pyStrip (s : String) : String :=
  ⟨((s.data.dropWhile isPySpace).reverse.dropWhile isPySpace).reverse⟩

/-- Helper for `pySplitlines`; the accumulator holds the current line reversed. -/
def pySplitlinesGo : List Char → List Char → List String
  | [], acc => if acc.isEmpty then [] else [⟨acc.reverse⟩]
  | '\n' :: rest, acc => ⟨acc.reverse⟩ :: pySplitlinesGo rest []
  | c :: rest, acc => pySplitlinesGo rest (c :: acc)

/-- Python `str.splitlines()` for newline-delimited text: splits on a newline
character and drops the empty tail produced by a trailing newline (faithful to
Python for strings whose only line separator is a line feed, which is the only
separator the tool output uses). -/
def pySplitlines (s : String) : List String :=
  pySplitlinesGo s.data []

/-- Helper for `pySplitNl`. -/
def pySplitNlGo : List Char → List Char → List String
  | [], acc => [⟨acc.reverse⟩]
  | '\n' :: rest, acc => ⟨acc.reverse⟩ :: pySplitNlGo rest []
  | c :: rest, acc => pySplitNlGo rest (c :: acc)

/-- Python `str.split('\n')`: splits on every newline, keeping empty pieces. -/
def pySplitNl (s : String) : List String :=
  pySplitNlGo s.data []

/-- Helper for `pySplitWs`. -/
def pySplitWsGo : List Char → List Char → List String
  | [], acc => if acc.isEmpty then [] else [⟨acc.reverse⟩]
  | c :: rest, acc =>
    if isPySpace c then
      if acc.isEmpty then pySplitWsGo rest []
      else ⟨acc.reverse⟩ :: pySplitWsGo rest []
    else pySplitWsGo rest (c :: acc)

/-- Python `str.split()` with no arguments: split on whitespace runs,
producing no empty fields. -/
def pySplitWs (s : String) : List String :=
  pySplitWsGo s.data []

/-- Python slicing `s[:n]`: the first `n` characters of `s`. -/
def pyTake (n : Nat) (s : String) : String :=
  ⟨s.data.take n⟩

/-- Python `s.startswith(p)`. -/
def strStartsWith (s p : String) : Bool :=
  p.data.isPrefixOf s.data

/-- Whether `needle` occurs as a contiguous run inside `hay` (character lists). -/
def containsSub (needle : List Char) : List Char → Bool
  | [] => needle.isEmpty
  | c :: rest => needle.isPrefixOf (c :: rest) || containsSub needle rest

/-- Python `needle in hay` on strings. -/
def strContains (hay needle : String) : Bool :=
  containsSub needle.data hay.data

/-- Python `repr` of a string, for strings containing no quote, backslash or
control characters (the only case the statements below evaluate): the text
between single quotes. -/
def pyReprSimple (s : String) : String :=
  "\x27" ++ s ++ "\x27"

/-! ### Data model -/

/-- Result of one external process invocation, as captured by the process
runner `execute` from `antismash.common.subprocessing.base`. -/
structure ExecResult where
  return_code : Int
  stdout : String
  stderr : String
  deriving DecidableEq, Repr

/-- Modelled from the spec: `RunResult.successful` lives in
`antismash.common.subprocessing.base`, which is not part of the sources here.
The spec states the process runner never raises on a nonzero exit and that the
executors fail exactly on a nonzero exit code, so success means exit code zero. -/
def ExecResult.successful (r : ExecResult) : Bool :=
  r.return_code == 0

/-- The optional `hmmer3` section of the configuration, as read by
`run_hmmsearch`: `config.get('hmmer3')` truthy, with an optional
`multithreading` key. -/
structure Hmmer3Options where
  has_multithreading_key : Bool
  multithreading : Bool
  deriving DecidableEq, Repr

/-- The configuration collaborator (`get_config()`): executable paths and the
configured worker count, plus the optional hmmer3 feature toggles. -/
structure Config where
  executables_hmmscan : String
  executables_hmmsearch : String
  cpus : Nat
  hmmer3 : Option Hmmer3Options

/-- Opaque structured hit record: one entry of the canonical result collection
produced by the external SearchIO parser.  Its contents are never inspected by
this layer. -/
structure QueryResult where
  data : String
  deriving DecidableEq, Repr

/-- The Python exceptions this layer raises or lets escape. -/
inductive PyError where
  | valueError (msg : String)
  | runtimeError (msg : String)
  | osError
  | libraryError
  deriving DecidableEq, Repr

deriving instance DecidableEq for Except

/-- Outcome of the embedded-library (pyhmmer) shadow block: it either
completes, raises an `OSError` (I/O failure), or raises some other exception
(a library error, or the `IndexError` from indexing an empty hit list). -/
inductive ShadowOutcome where
  | ok
  | osError
  | libraryError
  deriving DecidableEq, Repr

/-- Observable effect events, in execution order. -/
inductive Event where
  | launchProcess (command : List String) (stdin : Option String)
  | wroteFile (name : String)
  | ranShadow (tool : String)
  | parsedOutput (format : String)
  deriving DecidableEq, Repr

/-- Number of external process launches in a trace. -/
def countLaunches (events : List Event) : Nat :=
  events.countP fun e =>
    match e with
    | Event.launchProcess _ _ => true
    | _ => false

/-! ### The error classifier: `_find_error` from hmmscan.py -/

/-- First loop of `_find_error`: scan for a line starting with `Error:`;
return it stripped, joined by a space with the stripped following line when
one exists. -/
def find_error_scan : List String → Option String
  | [] => none
  | line :: rest =>
    if strStartsWith line ("Error:") then
      match rest with
      | [] => some (pyStrip line)
      | next :: _ => some (pyStrip line ++ " " ++ pyStrip next)
    else find_error_scan rest

/-- Second loop of `_find_error`: first line that is non-empty once stripped,
returned stripped. -/
def first_nonempty_line : List String → Option String
  | [] => none
  | line :: rest =>
    if pyStrip line = "" then first_nonempty_line rest else some (pyStrip line)

/-- Embedding of `_find_error` (hmmscan.py lines 13-27): the most descriptive
line in error output. -/
def find_error (output : List String) : String :=
  match find_error_scan output with
  | some s => s
  | none =>
    match first_nonempty_line output with
    | some s => s
    | none => "unknown error"

/-- The classifier exactly as claim C3 words it: the first `Error:` line
literally concatenated with the following line (no trimming, no separator),
that line alone otherwise; else the first line non-empty after trimming,
trimmed; else the fallback.  Used only to compare the claim's wording with
the source behaviour. -/
def find_error_claimed (output : List String) : String :=
  match output.dropWhile (fun line => !(strStartsWith line ("Error:"))) with
  | line :: next :: _ => line ++ next
  | [line] => line
  | [] =>
    match output.find? (fun line => !(pyStrip line == "")) with
    | some line => pyStrip line
    | none => "unknown error"

/-! ### Capability probes -/

/-- Embedding of `run_hmmscan_help` (hmmscan.py lines 106-124).  The cache is
the `help_text` attribute stored on the function object, with the empty string
standing for the `getattr` default (unset).  `help_exec` supplies the captured
result of `execute([hmmscan, "-h"])` if the probe has to run.  Returns the
call's outcome, the cache state after the call, and the effect trace. -/
def run_hmmscan_help (exe : String) (help_exec : ExecResult) (cache : String) :
    Except PyError String × String × List Event :=
  if cache ≠ "" then (Except.ok cache, cache, [])
  else
    let command := [exe, "-h"]
    let help_text := help_exec.stdout
    if strStartsWith help_text ("# hmmscan") = false then
      (Except.error (PyError.runtimeError
          ("unexpected output from hmmscan: " ++ exe ++ ", check path")),
        cache, [Event.launchProcess command none])
    else
      (Except.ok help_text, help_text, [Event.launchProcess command none])

/-- Iterate `run_hmmscan_help` with a fixed environment, threading the cache:
the list of the calls' results, the final cache, and the combined trace. -/
def run_hmmscan_help_times (exe : String) (help_exec : ExecResult) :
    Nat → String → List (Except PyError String) × String × List Event
  | 0, cache => ([], cache, [])
  | n + 1, cache =>
    let step := run_hmmscan_help exe help_exec cache
    let rest := run_hmmscan_help_times exe help_exec n step.2.1
    (step.1 :: rest.1, rest.2.1, step.2.2 ++ rest.2.2)

/-- Value computed by one invocation of `run_hmmsearch_version`
(hmmsearch.py lines 123-138): banner check on the captured help text, then the
third whitespace-separated field of its second line.  A missing second line or
field is Python's `IndexError`, modelled as a library error. -/
def run_hmmsearch_version_result (exe : String) (help_exec : ExecResult) :
    Except PyError String :=
  let help_text := help_exec.stdout
  if strStartsWith help_text ("# hmmsearch") = false then
    Except.error (PyError.runtimeError
      ("unexpected output from hmmsearch: " ++ exe ++ ", check path"))
  else
    match (pySplitNl help_text).get? 1 with
    | none => Except.error PyError.libraryError
    | some version_line =>
      match (pySplitWs version_line).get? 2 with
      | none => Except.error PyError.libraryError
      | some v => Except.ok v

/-- Embedding of `run_hmmsearch_version`: every call launches the tool in help
mode (there is no cache), then extracts the version. -/
def run_hmmsearch_version (exe : String) (help_exec : ExecResult) :
    Except PyError String × List Event :=
  (run_hmmsearch_version_result exe help_exec,
    [Event.launchProcess [exe, "-h"] none])

/-- Iterate `run_hmmsearch_version` with a fixed environment. -/
def run_hmmsearch_version_times (exe : String) (help_exec : ExecResult) :
    Nat → List (Except PyError String) × List Event
  | 0 => ([], [])
  | n + 1 =>
    let step := run_hmmsearch_version exe help_exec
    let rest := run_hmmsearch_version_times exe help_exec n
    (step.1 :: rest.1, step.2 ++ rest.2)

/-! ### Command builders -/

/-- The base hmmscan command (hmmscan.py line 58). -/
def hmmscan_base_command (config : Config) : List String :=
  [config.executables_hmmscan, "--cpu", toString config.cpus, "--nobias"]

/-- The full hmmscan command vector (hmmscan.py lines 58-66): the `--cpu`
flag and its value (`command[1:3]`) are dropped when the help text lacks the
multithreading token; extra options are appended verbatim, then the target
model path and the stdin placeholder. -/
def hmmscan_command (config : Config) (help_text : String)
    (opts : Option (List String)) (target_hmmfile : String) : List String :=
  let command := hmmscan_base_command config
  let command :=
    if strContains help_text (" --cpu ") = false then
      command.take 1 ++ command.drop 3
    else command
  let command :=
    match opts with
    | some extra => command ++ extra
    | none => command
  command ++ [target_hmmfile, "-"]

/-- The condition of hmmsearch.py lines 49-50: the configuration has a truthy
`hmmer3` section containing a `multithreading` key whose value is falsy. -/
def hmmer3_multithreading_disabled (config : Config) : Bool :=
  match config.hmmer3 with
  | some options => options.has_multithreading_key && !options.multithreading
  | none => false

/-- The hmmsearch command vector before the input argument (hmmsearch.py lines
43-51): the `--cpu` flag and its value are dropped exactly when the
configuration toggle disables multithreading; the capability probe is not
consulted. -/
def hmmsearch_command (config : Config) (query_hmmfile : String) : List String :=
  let command := [config.executables_hmmsearch, "--cpu", toString config.cpus,
    "-o", "/dev/null", "--domtblout", "result.domtab", query_hmmfile]
  if hmmer3_multithreading_disabled config then command.take 1 ++ command.drop 3
  else command

/-! ### Search executors -/

/-- Environment for one `run_hmmscan` call: the configuration, the captured
results of the two possible process invocations (help probe and the scan
itself), the outcome of the embedded pyhmmer shadow block, and the external
SearchIO parser for the `hmmer3-text` format. -/
structure ScanEnv where
  config : Config
  help_exec : ExecResult
  exec_result : ExecResult
  shadow : ShadowOutcome
  parse_hmmer3_text : String → List QueryResult

/-- The message of the RuntimeError raised by `run_hmmscan` on a nonzero exit
code (hmmscan.py lines 75-79). -/
def hmmscan_error_message (result : ExecResult) (query_sequence : String) : String :=
  "hmmscan returned " ++ toString result.return_code ++ ": " ++
    "\x27" ++
    find_error (pySplitlines (if result.stderr ≠ "" then result.stderr else result.stdout)) ++
    "\x27" ++ " while scanning " ++ pyReprSimple (pyTake 100 query_sequence) ++ "..."

/-- Embedding of `run_hmmscan` (hmmscan.py lines 34-103).  Returns the call's
outcome (value or raised exception), the help cache state after the call, and
the effect trace.  The timing accumulators and log records are observability
only and are not modelled. -/
def run_hmmscan (env : ScanEnv) (target_hmmfile : String) (query_sequence : String)
    (opts : Option (List String)) (results_file : Option String) (cache : String) :
    Except PyError (List QueryResult) × String × List Event :=
  if query_sequence = "" then
    (Except.error (PyError.valueError ("Cannot run hmmscan on empty sequence")), cache, [])
  else
    let probe := run_hmmscan_help env.config.executables_hmmscan env.help_exec cache
    match probe.1 with
    | Except.error e => (Except.error e, probe.2.1, probe.2.2)
    | Except.ok help_text =>
      let cache2 := probe.2.1
      let command := hmmscan_command env.config help_text opts target_hmmfile
      let result := env.exec_result
      let events1 := probe.2.2 ++ [Event.launchProcess command (some query_sequence)]
      if result.successful = false then
        (Except.error (PyError.runtimeError (hmmscan_error_message result query_sequence)),
          cache2, events1)
      else
        let events2 := events1 ++
          (match results_file with
            | some path => [Event.wroteFile path]
            | none => [])
        let events3 := events2 ++ [Event.wroteFile ("hmmscan_query.fa"), Event.ranShadow ("hmmscan")]
        match env.shadow with
        | ShadowOutcome.osError => (Except.error PyError.osError, cache2, events3)
        | ShadowOutcome.libraryError => (Except.error PyError.libraryError, cache2, events3)
        | ShadowOutcome.ok =>
          (Except.ok (env.parse_hmmer3_text result.stdout), cache2,
            events3 ++ [Event.parsedOutput ("hmmer3-text")])

/-- Environment for one `run_hmmsearch` call: the configuration, whether each
file write succeeds or raises an OSError, the launch outcome of the external
process (`none` models an OSError from `execute`, for example a missing
binary), the outcome of the pyhmmer shadow block, and the structured result of
parsing the `result.domtab` artifact the tool wrote. -/
structure SearchEnv where
  config : Config
  write_input_ok : Bool
  exec_launch : Option ExecResult
  write_stdin_copy_ok : Bool
  shadow : ShadowOutcome
  parse_domtab : List QueryResult

/-- Embedding of `run_hmmsearch` (hmmsearch.py lines 20-120).  Everything in
the temporary-directory block runs inside `try ... except OSError: return []`;
the exit-code check and the result parse come after that block. -/
def run_hmmsearch (env : SearchEnv) (query_hmmfile : String) (target_sequence : String)
    (use_tempfile : Bool) : Except PyError (List QueryResult) × List Event :=
  let command := hmmsearch_command env.config query_hmmfile
  if use_tempfile then
    if env.write_input_ok = false then (Except.ok [], [])
    else
      let command := command ++ ["input.fa"]
      match env.exec_launch with
      | none => (Except.ok [], [Event.wroteFile ("input.fa")])
      | some run_result =>
        let events1 := [Event.wroteFile ("input.fa"),
          Event.launchProcess command none, Event.ranShadow ("hmmsearch")]
        match env.shadow with
        | ShadowOutcome.osError => (Except.ok [], events1)
        | ShadowOutcome.libraryError => (Except.error PyError.libraryError, events1)
        | ShadowOutcome.ok =>
          if run_result.successful = false then
            (Except.error (PyError.runtimeError ("Running hmmsearch failed.")), events1)
          else
            (Except.ok env.parse_domtab, events1 ++ [Event.parsedOutput ("hmmsearch3-domtab")])
  else
    let command := command ++ ["-"]
    match env.exec_launch with
    | none => (Except.ok [], [])
    | some run_result =>
      let events0 := [Event.launchProcess command (some target_sequence)]
      if env.write_stdin_copy_ok = false then (Except.ok [], events0)
      else
        let events1 := events0 ++ [Event.wroteFile ("input_stdin_pyhmmer.fa"),
          Event.ranShadow ("hmmsearch")]
        match env.shadow with
        | ShadowOutcome.osError => (Except.ok [], events1)
        | ShadowOutcome.libraryError => (Except.error PyError.libraryError, events1)
        | ShadowOutcome.ok =>
          if run_result.successful = false then
            (Except.error (PyError.runtimeError ("Running hmmsearch failed.")), events1)
          else
            (Except.ok env.parse_domtab, events1 ++ [Event.parsedOutput ("hmmsearch3-domtab")])

/-- Characterizes the executions of `run_hmmsearch` in which Python raises an
OSError somewhere inside the temporary-directory try block: the input-file
write fails (tempfile mode), the process launch fails, the stdin-copy write
fails (pipe mode), or the shadow block raises an OSError. -/
def hmmsearchRaisesOsError (env : SearchEnv) (use_tempfile : Bool) : Bool :=
  if use_tempfile then
    if env.write_input_ok = false then true
    else
      match env.exec_launch with
      | none => true
      | some _ => env.shadow == ShadowOutcome.osError
  else
    match env.exec_launch with
    | none => true
    | some _ =>
      if env.write_stdin_copy_ok = false then true
      else env.shadow == ShadowOutcome.osError

/-! ### Helper lemmas -/

theorem data_append (a b : String) : (a ++ b).data = a.data ++ b.data := rfl

theorem isPrefixOf_self_append (l t : List Char) : l.isPrefixOf (l ++ t) = true := by
  induction l with
  | nil => simp [List.isPrefixOf]
  | cons c cs ih => simp [List.isPrefixOf, ih]

theorem containsSub_self_append (x b : List Char) : containsSub x (x ++ b) = true := by
  cases x with
  | nil =>
    cases b with
    | nil => rfl
    | cons c cs => simp [containsSub, List.isPrefixOf]
  | cons c cs => simp [containsSub, isPrefixOf_self_append]

theorem containsSub_cons (x : List Char) (c : Char) (t : List Char)
    (h : containsSub x t = true) : containsSub x (c :: t) = true := by
  simp [containsSub, h]

theorem containsSub_append_left (x h t : List Char)
    (hc : containsSub x t = true) : containsSub x (h ++ t) = true := by
  induction h with
  | nil => simpa using hc
  | cons c cs ih => simpa using containsSub_cons x c (cs ++ t) ih

theorem strContains_self_append (x b : String) : strContains (x ++ b) x = true := by
  unfold strContains
  rw [data_append]
  exact containsSub_self_append x.data b.data

theorem strContains_append_right (a b x : String)
    (h : strContains b x = true) : strContains (a ++ b) x = true := by
  unfold strContains at h ⊢
  rw [data_append]
  exact containsSub_append_left x.data a.data b.data h

theorem str_ext {a b : String} (h : a.data = b.data) : a = b := by
  cases a
  cases b
  exact congrArg String.mk h

theorem str_append_assoc (a b c : String) : (a ++ b) ++ c = a ++ (b ++ c) := by
  apply str_ext
  rw [data_append, data_append, data_append, data_append, List.append_assoc]

theorem run_hmmscan_help_cached (exe : String) (hexec : ExecResult) (cache : String)
    (h : cache ≠ "") : run_hmmscan_help exe hexec cache = (Except.ok cache, cache, []) := by
  simp [run_hmmscan_help, h]

theorem run_hmmscan_help_first_good (exe : String) (hexec : ExecResult)
    (h : strStartsWith hexec.stdout ("# hmmscan") = true) :
    run_hmmscan_help exe hexec "" =
      (Except.ok hexec.stdout, hexec.stdout, [Event.launchProcess [exe, "-h"] none]) := by
  simp [run_hmmscan_help, h]

theorem startsWith_hmmscan_ne_empty (s : String)
    (h : strStartsWith s ("# hmmscan") = true) : s ≠ "" := by
  intro he
  rw [he] at h
  exact absurd h (by decide)

theorem run_hmmscan_help_times_cached (exe : String) (hexec : ExecResult) (n : Nat)
    (cache : String) (h : cache ≠ "") :
    run_hmmscan_help_times exe hexec n cache =
      (List.replicate n (Except.ok cache), cache, []) := by
  induction n with
  | zero => rfl
  | succ m ih =>
    simp [run_hmmscan_help_times, run_hmmscan_help_cached exe hexec cache h, ih,
      List.replicate_succ]

theorem run_hmmsearch_version_times_spec (exe : String) (hexec : ExecResult) (n : Nat) :
    run_hmmsearch_version_times exe hexec n =
      (List.replicate n (run_hmmsearch_version_result exe hexec),
        List.replicate n (Event.launchProcess [exe, "-h"] none)) := by
  induction n with
  | zero => rfl
  | succ m ih =>
    simp [run_hmmsearch_version_times, run_hmmsearch_version, ih, List.replicate_succ]

theorem countLaunches_replicate_launch (n : Nat) (c : List String) (i : Option String) :
    countLaunches (List.replicate n (Event.launchProcess c i)) = n := by
  induction n with
  | zero => rfl
  | succ m ih => simp [countLaunches, List.replicate_succ, List.countP_cons] at ih ⊢; omega

/-! ### Claim theorems -/

/-- C6 (counterexample): with a realistic, well-formed help text and a fixed
environment, two calls to `run_hmmsearch_version` both succeed with identical
results, yet two underlying processes are launched — the claimed "at most one
underlying process invocation" is false for this probe. -/
theorem c6_counterexample :
    ¬ (countLaunches (run_hmmsearch_version_times ("/usr/bin/hmmsearch")
        ⟨0, "# hmmsearch :: search profile(s) against a sequence database\n# HMMER 3.3.2 (Nov 2020); http://hmmer.org/", ""⟩ 2).2 ≤ 1) ∧
    (run_hmmsearch_version_times ("/usr/bin/hmmsearch")
        ⟨0, "# hmmsearch :: search profile(s) against a sequence database\n# HMMER 3.3.2 (Nov 2020); http://hmmer.org/", ""⟩ 2).1 =
      [Except.ok "3.3.2", Except.ok "3.3.2"] := by
  exact ⟨by decide, by decide⟩

/-- C6 (amended): `run_hmmscan_help` is a caching probe: starting from an
empty cache, N calls with banner-conformant captured output perform at most
one underlying process invocation and every call observes the same help text.
`run_hmmsearch_version` has no cache: N calls perform exactly N underlying
process invocations, though with a fixed environment all N calls observe an
identical result. -/
theorem c6_amended :
    (∀ (exe : String) (hexec : ExecResult) (n : Nat),
      strStartsWith hexec.stdout ("# hmmscan") = true →
        countLaunches (run_hmmscan_help_times exe hexec n "").2.2 ≤ 1 ∧
        ∀ r ∈ (run_hmmscan_help_times exe hexec n "").1, r = Except.ok hexec.stdout) ∧
    (∀ (exe : String) (hexec : ExecResult) (n : Nat),
      countLaunches (run_hmmsearch_version_times exe hexec n).2 = n ∧
      ∀ r ∈ (run_hmmsearch_version_times exe hexec n).1,
        r = run_hmmsearch_version_result exe hexec) := by
  constructor
  · intro exe hexec n h
    cases n with
    | zero => exact ⟨by simp [run_hmmscan_help_times, countLaunches], by simp [run_hmmscan_help_times]⟩
    | succ m =>
      have hne : hexec.stdout ≠ "" := startsWith_hmmscan_ne_empty hexec.stdout h
      have hstep := run_hmmscan_help_first_good exe hexec h
      have hrest := run_hmmscan_help_times_cached exe hexec m hexec.stdout hne
      constructor
      · simp [run_hmmscan_help_times, hstep, hrest, countLaunches, List.countP_append]
      · intro r hr
        simp [run_hmmscan_help_times, hstep, hrest] at hr
        rcases hr with h1 | h2
        · exact h1
        · exact h2.2
  · intro exe hexec n
    rw [run_hmmsearch_version_times_spec]
    exact ⟨countLaunches_replicate_launch n [exe, "-h"] none,
      fun r hr => List.eq_of_mem_replicate hr⟩

/-- C6 (witness): the amended theorem applied concretely — three calls to the
caching hmmscan probe launch one process and all return the same text, while
two calls to the hmmsearch probe launch two processes. -/
theorem c6_amended_witness :
    (countLaunches (run_hmmscan_help_times ("scan.exe") ⟨0, "# hmmscan h\n# HMMER 3.3.2 (Nov 2020)", ""⟩ 3 "").2.2 ≤ 1 ∧
      ∀ r ∈ (run_hmmscan_help_times ("scan.exe") ⟨0, "# hmmscan h\n# HMMER 3.3.2 (Nov 2020)", ""⟩ 3 "").1,
        r = Except.ok "# hmmscan h\n# HMMER 3.3.2 (Nov 2020)") ∧
    countLaunches (run_hmmsearch_version_times ("search.exe") ⟨0, "x", ""⟩ 2).2 = 2 := by
  exact ⟨c6_amended.1 ("scan.exe") ⟨0, "# hmmscan h\n# HMMER 3.3.2 (Nov 2020)", ""⟩ 3 (by decide),
    (c6_amended.2 ("search.exe") ⟨0, "x", ""⟩ 2).1⟩

/-- C7: a help-probe invocation whose captured output does not begin with the
expected banner fails with the tool-invocation RuntimeError; the hmmscan cache
is left unchanged (still unset), so a second call launches the tool again (two
calls, two launches); the hmmsearch probe has no cache and likewise probes
again on the next call. -/
theorem c7_bad_banner_never_cached :
    (∀ (exe : String) (hexec : ExecResult),
      strStartsWith hexec.stdout ("# hmmscan") = false →
        run_hmmscan_help exe hexec "" =
          (Except.error (PyError.runtimeError
              ("unexpected output from hmmscan: " ++ exe ++ ", check path")), "",
            [Event.launchProcess [exe, "-h"] none]) ∧
        countLaunches (run_hmmscan_help_times exe hexec 2 "").2.2 = 2) ∧
    (∀ (exe : String) (hexec : ExecResult),
      strStartsWith hexec.stdout ("# hmmsearch") = false →
        (run_hmmsearch_version exe hexec).1 =
          Except.error (PyError.runtimeError
            ("unexpected output from hmmsearch: " ++ exe ++ ", check path")) ∧
        countLaunches (run_hmmsearch_version_times exe hexec 2).2 = 2) := by
  constructor
  · intro exe hexec h
    have hstep : run_hmmscan_help exe hexec "" =
        (Except.error (PyError.runtimeError
            ("unexpected output from hmmscan: " ++ exe ++ ", check path")), "",
          [Event.launchProcess [exe, "-h"] none]) := by
      simp [run_hmmscan_help, h]
    refine ⟨hstep, ?_⟩
    simp [run_hmmscan_help_times, hstep, countLaunches, List.countP_append]
  · intro exe hexec h
    constructor
    · simp [run_hmmsearch_version, run_hmmsearch_version_result, h]
    · rw [run_hmmsearch_version_times_spec]
      exact countLaunches_replicate_launch 2 [exe, "-h"] none

/-- C7 (witness): the theorem applied to captured outputs that lack the
banners. -/
theorem c7_bad_banner_never_cached_witness :
    (run_hmmscan_help ("scan.exe") ⟨0, "garbage", ""⟩ "" =
        (Except.error (PyError.runtimeError
            ("unexpected output from hmmscan: scan.exe, check path")), "",
          [Event.launchProcess ["scan.exe", "-h"] none]) ∧
      countLaunches (run_hmmscan_help_times ("scan.exe") ⟨0, "garbage", ""⟩ 2 "").2.2 = 2) ∧
    ((run_hmmsearch_version ("search.exe") ⟨0, "garbage", ""⟩).1 =
        Except.error (PyError.runtimeError
          ("unexpected output from hmmsearch: search.exe, check path")) ∧
      countLaunches (run_hmmsearch_version_times ("search.exe") ⟨0, "garbage", ""⟩ 2).2 = 2) := by
  exact ⟨c7_bad_banner_never_cached.1 ("scan.exe") ⟨0, "garbage", ""⟩ (by decide),
    c7_bad_banner_never_cached.2 ("search.exe") ⟨0, "garbage", ""⟩ (by decide)⟩

theorem find_error_scan_eq (l : List String) :
    find_error_scan l =
      match l.dropWhile (fun line => !(strStartsWith line ("Error:"))) with
      | [] => none
      | [line] => some (pyStrip line)
      | line :: next :: _ => some (pyStrip line ++ " " ++ pyStrip next) := by
  induction l with
  | nil => rfl
  | cons h t ih =>
    by_cases hs : strStartsWith h ("Error:") = true
    · rw [List.dropWhile_cons_of_neg (by simp [hs])]
      cases t with
      | nil => simp [find_error_scan, hs]
      | cons next rest => simp [find_error_scan, hs]
    · rw [List.dropWhile_cons_of_pos (by simp [Bool.of_not_eq_true hs])]
      rw [← ih]
      simp [find_error_scan, Bool.of_not_eq_true hs]

theorem first_nonempty_line_eq (l : List String) :
    first_nonempty_line l =
      Option.map pyStrip (l.find? (fun line => !(pyStrip line == ""))) := by
  induction l with
  | nil => rfl
  | cons h t ih =>
    by_cases he : pyStrip h = ""
    · rw [List.find?_cons_of_neg _ (by simp [he])]
      simp [first_nonempty_line, he, ih]
    · rw [List.find?_cons_of_pos _ (by simp [he])]
      simp [first_nonempty_line, he]

/-- C3 (amended): the classifier is total over every list of strings and
returns: when a line beginning with the literal token `Error:` exists, the
first such line trimmed, a single space, and the following line trimmed (the
first such line trimmed, alone, when no following line exists); else, if some
line is non-empty after trimming, the first such line trimmed; else the fixed
fallback string "unknown error". -/
theorem c3_find_error_characterization (output : List String) :
    find_error output =
      match output.dropWhile (fun line => !(strStartsWith line ("Error:"))) with
      | [] =>
        match output.find? (fun line => !(pyStrip line == "")) with
        | some line => pyStrip line
        | none => "unknown error"
      | [line] => pyStrip line
      | line :: next :: _ => pyStrip line ++ " " ++ pyStrip next := by
  unfold find_error
  rw [find_error_scan_eq]
  cases houtput : output.dropWhile (fun line => !(strStartsWith line ("Error:"))) with
  | nil =>
    rw [first_nonempty_line_eq]
    cases hfind : output.find? (fun line => !(pyStrip line == "")) with
    | none => rfl
    | some line => rfl
  | cons line rest =>
    cases rest with
    | nil => rfl
    | cons next rest2 => rfl

/-- C3 (counterexample): the claim's first branch — the error line literally
"concatenated with the following line" — is false on the code: on input
`["Error: a", "b"]` the code returns the two lines trimmed and joined by a
single space, "Error: a b", not the concatenation "Error: ab". -/
theorem c3_counterexample :
    find_error [("Error: a"), ("b")] = "Error: a b" ∧
    find_error_claimed [("Error: a"), ("b")] = "Error: ab" ∧
    ("Error: a b" : String) ≠ "Error: ab" := by
  exact ⟨by decide, by decide, by decide⟩

/-- C5 (counterexample): a configuration with no `hmmer3` section, together
with a capability-probe help text that succeeds the banner check yet lacks the
multithreading token " --cpu ": the built hmmsearch command vector still
contains the thread-count flag, because `run_hmmsearch` never consults the
probe. -/
theorem c5_counterexample :
    strContains "# hmmsearch :: x\n# HMMER 3.3.2 (Nov 2020)" (" --cpu ") = false ∧
    (run_hmmsearch_version ("search.exe")
        ⟨0, "# hmmsearch :: x\n# HMMER 3.3.2 (Nov 2020)", ""⟩).1 = Except.ok "3.3.2" ∧
    ("--cpu") ∈ hmmsearch_command ⟨"scan.exe", "search.exe", 4, none⟩ ("m.hmm") := by
  exact ⟨by decide, by decide, by decide⟩

/-- C5 (amended): for hmmscan, whenever the capability probe's help text lacks
the token " --cpu ", the built command vector drops the thread-count flag and
its value, reducing to executable, "--nobias", the extra options, the target
path and the stdin placeholder — so, provided the remaining components do not
themselves spell the flag or the worker count, neither appears in the vector.
For hmmsearch the probe is irrelevant: the flag is present exactly when the
`hmmer3.multithreading` configuration toggle does not disable it. -/
theorem c5_thread_flag :
    (∀ (config : Config) (help_text : String) (opts : List String) (target : String),
      strContains help_text (" --cpu ") = false →
        hmmscan_command config help_text (some opts) target =
          [config.executables_hmmscan, "--nobias"] ++ opts ++ [target, "-"] ∧
        (("--cpu") ∉ opts → config.executables_hmmscan ≠ "--cpu" → target ≠ "--cpu" →
          ("--cpu") ∉ hmmscan_command config help_text (some opts) target) ∧
        (toString config.cpus ∉ opts → config.executables_hmmscan ≠ toString config.cpus →
          target ≠ toString config.cpus → toString config.cpus ≠ "--nobias" →
          toString config.cpus ≠ "-" →
          toString config.cpus ∉ hmmscan_command config help_text (some opts) target)) ∧
    (∀ (config : Config) (query_hmmfile : String),
      config.executables_hmmsearch ≠ "--cpu" → query_hmmfile ≠ "--cpu" →
        (("--cpu") ∈ hmmsearch_command config query_hmmfile ↔
          hmmer3_multithreading_disabled config = false)) := by
  constructor
  · intro config help_text opts target hlacks
    have hcmd : hmmscan_command config help_text (some opts) target =
        [config.executables_hmmscan, "--nobias"] ++ opts ++ [target, "-"] := by
      simp [hmmscan_command, hmmscan_base_command, hlacks]
    refine ⟨hcmd, ?_, ?_⟩
    · intro h1 h2 h3
      rw [hcmd]
      simp [List.mem_append, List.mem_cons, h1, Ne.symm h2, Ne.symm h3]
    · intro h1 h2 h3 h4 h5
      rw [hcmd]
      simp [List.mem_append, List.mem_cons, h1, Ne.symm h2, Ne.symm h3, h4, h5]
  · intro config query_hmmfile h1 h2
    cases hdis : hmmer3_multithreading_disabled config with
    | false => simp [hmmsearch_command, hdis]
    | true => simp [hmmsearch_command, hdis, Ne.symm h1, Ne.symm h2]

/-- C5 (witness): the amended theorem applied to a concrete configuration and
probe text lacking the token. -/
theorem c5_thread_flag_witness :
    hmmscan_command ⟨"scan.exe", "search.exe", 4, none⟩ "# hmmscan h" (some ["--max"]) ("m.hmm") =
      ["scan.exe", "--nobias"] ++ ["--max"] ++ ["m.hmm", "-"] ∧
    ("--cpu") ∉ hmmscan_command ⟨"scan.exe", "search.exe", 4, none⟩ "# hmmscan h" (some ["--max"]) ("m.hmm") ∧
    (("--cpu") ∈ hmmsearch_command ⟨"scan.exe", "search.exe", 4, none⟩ ("m.hmm") ↔
      hmmer3_multithreading_disabled ⟨"scan.exe", "search.exe", 4, none⟩ = false) := by
  have h := c5_thread_flag
  have h1 := h.1 ⟨"scan.exe", "search.exe", 4, none⟩ "# hmmscan h" ["--max"] ("m.hmm") (by decide)
  exact ⟨h1.1, h1.2.1 (by decide) (by decide) (by decide),
    h.2 ⟨"scan.exe", "search.exe", 4, none⟩ ("m.hmm") (by decide) (by decide)⟩

theorem containsSub_eq_true_iff (n h : List Char) : containsSub n h = true ↔ n <:+: h := by
  induction h with
  | nil =>
    simp [containsSub, List.isEmpty_iff]
  | cons c cs ih =>
    simp only [containsSub, Bool.or_eq_true, ih]
    rw [List.isPrefixOf_iff_prefix]
    exact (List.infix_cons_iff).symm

theorem infix_ext_right {α : Type} {x l : List α} (t : List α) (h : x <:+: l) :
    x <:+: l ++ t := by
  rcases h with ⟨s, u, rfl⟩
  exact ⟨s, u ++ t, by simp⟩

theorem infix_ext_left {α : Type} {x l : List α} (t : List α) (h : x <:+: l) :
    x <:+: t ++ l := by
  rcases h with ⟨s, u, rfl⟩
  exact ⟨t ++ s, u, by simp⟩

theorem strContains_eq_true_iff (hay x : String) :
    strContains hay x = true ↔ x.data <:+: hay.data :=
  containsSub_eq_true_iff x.data hay.data

theorem run_hmmscan_help_no_shadow (exe : String) (hexec : ExecResult) (cache : String) :
    Event.ranShadow ("hmmscan") ∉ (run_hmmscan_help exe hexec cache).2.2 := by
  by_cases hc : cache ≠ ""
  · simp [run_hmmscan_help, hc]
  · have hc2 : cache = "" := not_ne_iff.mp hc
    subst hc2
    by_cases hb : strStartsWith hexec.stdout ("# hmmscan") = false
    · simp [run_hmmscan_help, hb]
    · simp [run_hmmscan_help, hb]

/-- C1 (counterexample): in `run_hmmscan`, a library exception in the
embedded-library shadow block propagates to the caller: with the subprocess
path succeeding (exit code 0, parser yielding one hit), the call raises the
shadow failure instead of returning the subprocess result, which the identical
environment with a healthy shadow block returns. -/
theorem c1_counterexample :
    (run_hmmscan ⟨⟨"scan.exe", "search.exe", 4, none⟩, ⟨0, "# hmmscan h", ""⟩,
        ⟨0, "raw output", ""⟩, ShadowOutcome.libraryError, fun s => [⟨s⟩]⟩
        "m.hmm" "q" none none "# hmmscan cached").1 = Except.error PyError.libraryError ∧
    (run_hmmscan ⟨⟨"scan.exe", "search.exe", 4, none⟩, ⟨0, "# hmmscan h", ""⟩,
        ⟨0, "raw output", ""⟩, ShadowOutcome.ok, fun s => [⟨s⟩]⟩
        "m.hmm" "q" none none "# hmmscan cached").1 = Except.ok [⟨"raw output"⟩] := by
  exact ⟨rfl, rfl⟩

/-- C1 (amended): shadow-path failures are not isolated.  In `run_hmmscan`
every shadow failure — OSError or library exception — propagates to the
caller.  In `run_hmmsearch` an OSError in the shadow block is caught, but
then the call returns an empty list instead of the subprocess path's parsed
result, and a non-OSError shadow exception propagates. -/
theorem c1_shadow_not_isolated :
    (∀ (env : ScanEnv) (target q : String) (opts : Option (List String))
        (rf : Option String) (cache : String),
      q ≠ "" → cache ≠ "" → env.exec_result.successful = true →
        (run_hmmscan {env with shadow := ShadowOutcome.osError}
            target q opts rf cache).1 = Except.error PyError.osError ∧
        (run_hmmscan {env with shadow := ShadowOutcome.libraryError}
            target q opts rf cache).1 = Except.error PyError.libraryError) ∧
    (∀ (env : SearchEnv) (qh t : String) (u : Bool) (r : ExecResult),
      env.exec_launch = some r → env.write_input_ok = true →
      env.write_stdin_copy_ok = true →
        (run_hmmsearch {env with shadow := ShadowOutcome.osError} qh t u).1 =
          Except.ok [] ∧
        (run_hmmsearch {env with shadow := ShadowOutcome.libraryError} qh t u).1 =
          Except.error PyError.libraryError) := by
  constructor
  · intro env target q opts rf cache hq hc hsucc
    constructor
    · simp [run_hmmscan, run_hmmscan_help_cached _ _ _ hc, hq, hsucc]
    · simp [run_hmmscan, run_hmmscan_help_cached _ _ _ hc, hq, hsucc]
  · intro env qh t u r hl hw1 hw2
    cases u
    · exact ⟨by simp [run_hmmsearch, hl, hw2], by simp [run_hmmsearch, hl, hw2]⟩
    · exact ⟨by simp [run_hmmsearch, hl, hw1], by simp [run_hmmsearch, hl, hw1]⟩

/-- C1 (witness): the amended theorem applied to concrete environments. -/
theorem c1_shadow_not_isolated_witness :
    ((run_hmmscan {(⟨⟨"scan.exe", "search.exe", 4, none⟩, ⟨0, "# hmmscan h", ""⟩,
          ⟨0, "raw output", ""⟩, ShadowOutcome.ok, fun s => [⟨s⟩]⟩ : ScanEnv) with
          shadow := ShadowOutcome.osError}
        "m.hmm" "q" none none "cached").1 = Except.error PyError.osError ∧
      (run_hmmscan {(⟨⟨"scan.exe", "search.exe", 4, none⟩, ⟨0, "# hmmscan h", ""⟩,
          ⟨0, "raw output", ""⟩, ShadowOutcome.ok, fun s => [⟨s⟩]⟩ : ScanEnv) with
          shadow := ShadowOutcome.libraryError}
        "m.hmm" "q" none none "cached").1 = Except.error PyError.libraryError) ∧
    ((run_hmmsearch {(⟨⟨"scan.exe", "search.exe", 4, none⟩, true, some ⟨0, "", ""⟩, true,
          ShadowOutcome.ok, [⟨"hit"⟩]⟩ : SearchEnv) with shadow := ShadowOutcome.osError}
        "m.hmm" "seq" false).1 = Except.ok [] ∧
      (run_hmmsearch {(⟨⟨"scan.exe", "search.exe", 4, none⟩, true, some ⟨0, "", ""⟩, true,
          ShadowOutcome.ok, [⟨"hit"⟩]⟩ : SearchEnv) with shadow := ShadowOutcome.libraryError}
        "m.hmm" "seq" false).1 = Except.error PyError.libraryError) := by
  exact ⟨c1_shadow_not_isolated.1 ⟨⟨"scan.exe", "search.exe", 4, none⟩, ⟨0, "# hmmscan h", ""⟩,
      ⟨0, "raw output", ""⟩, ShadowOutcome.ok, fun s => [⟨s⟩]⟩
      "m.hmm" "q" none none "cached" (by decide) (by decide) (by decide),
    c1_shadow_not_isolated.2 ⟨⟨"scan.exe", "search.exe", 4, none⟩, true, some ⟨0, "", ""⟩, true,
      ShadowOutcome.ok, [⟨"hit"⟩]⟩ "m.hmm" "seq" false ⟨0, "", ""⟩ rfl rfl rfl⟩

/-- C2 (counterexample): `run_hmmsearch` has no empty-input check: called with
an empty query (pipe mode), it launches the external process, feeding it the
empty string on stdin, runs to completion and raises no empty-input error. -/
theorem c2_counterexample :
    Event.launchProcess ["search.exe", "--cpu", "4", "-o", "/dev/null", "--domtblout",
        "result.domtab", "m.hmm", "-"] (some "") ∈
      (run_hmmsearch ⟨⟨"scan.exe", "search.exe", 4, none⟩, true, some ⟨0, "", ""⟩, true,
          ShadowOutcome.ok, []⟩ "m.hmm" "" false).2 ∧
    (run_hmmsearch ⟨⟨"scan.exe", "search.exe", 4, none⟩, true, some ⟨0, "", ""⟩, true,
        ShadowOutcome.ok, []⟩ "m.hmm" "" false).1 = Except.ok [] := by
  exact ⟨by decide, by decide⟩

/-- C2 (amended): `run_hmmscan` rejects an empty query before any I/O — it
raises the empty-input ValueError with an empty effect trace (no file writes,
no process launches), leaving the probe cache untouched.  `run_hmmsearch`
performs no such check: whenever the launch itself does not fail, exactly one
external process is launched even for an empty query. -/
theorem c2_empty_input :
    (∀ (env : ScanEnv) (target : String) (opts : Option (List String))
        (results_file : Option String) (cache : String),
      run_hmmscan env target "" opts results_file cache =
        (Except.error (PyError.valueError ("Cannot run hmmscan on empty sequence")),
          cache, [])) ∧
    (∀ (env : SearchEnv) (qh : String) (u : Bool) (r : ExecResult),
      env.exec_launch = some r → env.write_input_ok = true →
        countLaunches (run_hmmsearch env qh "" u).2 = 1) := by
  constructor
  · intro env target opts results_file cache
    simp [run_hmmscan]
  · intro env qh u r hl hw
    cases u
    · cases hws : env.write_stdin_copy_ok
      · simp [run_hmmsearch, hl, hws, countLaunches]
      · cases hs : env.shadow <;> cases hr : r.successful <;>
          simp [run_hmmsearch, hl, hws, hs, hr, countLaunches, List.countP_append,
            List.countP_cons]
    · cases hs : env.shadow <;> cases hr : r.successful <;>
        simp [run_hmmsearch, hl, hw, hs, hr, countLaunches, List.countP_append,
          List.countP_cons]

/-- C2 (witness): the amended theorem applied concretely: an empty-query
`run_hmmscan` call rejects with an empty trace, and an empty-query
`run_hmmsearch` call launches one process. -/
theorem c2_empty_input_witness :
    run_hmmscan ⟨⟨"scan.exe", "search.exe", 4, none⟩, ⟨0, "# hmmscan h", ""⟩,
        ⟨0, "raw", ""⟩, ShadowOutcome.ok, fun s => [⟨s⟩]⟩ "m.hmm" "" none none "" =
      (Except.error (PyError.valueError ("Cannot run hmmscan on empty sequence")), "", []) ∧
    countLaunches (run_hmmsearch ⟨⟨"scan.exe", "search.exe", 4, none⟩, true,
        some ⟨0, "", ""⟩, true, ShadowOutcome.ok, []⟩ "m.hmm" "" false).2 = 1 := by
  exact ⟨c2_empty_input.1 ⟨⟨"scan.exe", "search.exe", 4, none⟩, ⟨0, "# hmmscan h", ""⟩,
      ⟨0, "raw", ""⟩, ShadowOutcome.ok, fun s => [⟨s⟩]⟩ "m.hmm" none none "",
    c2_empty_input.2 ⟨⟨"scan.exe", "search.exe", 4, none⟩, true, some ⟨0, "", ""⟩, true,
      ShadowOutcome.ok, []⟩ "m.hmm" false ⟨0, "", ""⟩ rfl rfl⟩

/-- C4 (counterexample): a `run_hmmsearch` invocation exiting with code 7 and
a classifiable stderr raises a fixed-text RuntimeError that carries neither
the exit code, nor the classifier's diagnostic, nor any prefix of the query. -/
theorem c4_counterexample :
    (run_hmmsearch ⟨⟨"scan.exe", "search.exe", 4, none⟩, true,
        some ⟨7, "", "Error: boom\n  details"⟩, true, ShadowOutcome.ok, []⟩
        "m.hmm" "MKVLA" false).1 =
      Except.error (PyError.runtimeError ("Running hmmsearch failed.")) ∧
    strContains "Running hmmsearch failed." ("7") = false ∧
    strContains "Running hmmsearch failed."
      (find_error (pySplitlines "Error: boom\n  details")) = false ∧
    strContains "Running hmmsearch failed." ("MKVLA") = false := by
  exact ⟨by decide, by decide, by decide, by decide⟩

theorem run_hmmscan_fail_eq (env : ScanEnv) (target q : String)
    (opts : Option (List String)) (rf : Option String) (cache : String)
    (hq : q ≠ "") (hc : cache ≠ "") (hfail : env.exec_result.successful = false) :
    (run_hmmscan env target q opts rf cache).1 =
      Except.error (PyError.runtimeError (hmmscan_error_message env.exec_result q)) := by
  simp [run_hmmscan, run_hmmscan_help_cached _ _ _ hc, hq, hfail]

/-- C4 (amended): the claim holds for `run_hmmscan`: on a nonzero exit its
RuntimeError message carries the exit code, the classifier diagnostic computed
from stderr when non-empty and stdout otherwise, and the at-most-100-character
prefix of the query.  It fails for `run_hmmsearch`: on a nonzero exit the
raised error is the fixed string "Running hmmsearch failed." (the exit code
and raw stderr are only logged). -/
theorem c4_error_payload :
    (∀ (env : ScanEnv) (target q : String) (opts : Option (List String))
        (rf : Option String) (cache : String),
      q ≠ "" → cache ≠ "" → env.exec_result.successful = false →
        (run_hmmscan env target q opts rf cache).1 =
          Except.error (PyError.runtimeError (hmmscan_error_message env.exec_result q)) ∧
        strContains (hmmscan_error_message env.exec_result q)
          (toString env.exec_result.return_code) = true ∧
        strContains (hmmscan_error_message env.exec_result q)
          (find_error (pySplitlines
            (if env.exec_result.stderr ≠ "" then env.exec_result.stderr
              else env.exec_result.stdout))) = true ∧
        strContains (hmmscan_error_message env.exec_result q) (pyTake 100 q) = true ∧
        (pyTake 100 q).data.length ≤ 100) ∧
    (∀ (env : SearchEnv) (qh t : String) (u : Bool) (r : ExecResult),
      env.exec_launch = some r → env.write_input_ok = true →
      env.write_stdin_copy_ok = true → env.shadow = ShadowOutcome.ok →
      r.successful = false →
        (run_hmmsearch env qh t u).1 =
          Except.error (PyError.runtimeError ("Running hmmsearch failed."))) := by
  constructor
  · intro env target q opts rf cache hq hc hfail
    refine ⟨run_hmmscan_fail_eq env target q opts rf cache hq hc hfail, ?_, ?_, ?_, ?_⟩
    · rw [strContains_eq_true_iff]
      simp only [hmmscan_error_message, data_append]
      apply infix_ext_right
      apply infix_ext_right
      apply infix_ext_right
      apply infix_ext_right
      apply infix_ext_right
      apply infix_ext_right
      apply infix_ext_right
      apply infix_ext_left
      exact List.infix_refl _
    · rw [strContains_eq_true_iff]
      simp only [hmmscan_error_message, data_append]
      apply infix_ext_right
      apply infix_ext_right
      apply infix_ext_right
      apply infix_ext_right
      apply infix_ext_left
      exact List.infix_refl _
    · rw [strContains_eq_true_iff]
      simp only [hmmscan_error_message, pyReprSimple, data_append]
      apply infix_ext_right
      apply infix_ext_left
      apply infix_ext_right
      apply infix_ext_left
      exact List.infix_refl _
    · have : (pyTake 100 q).data = q.data.take 100 := rfl
      rw [this, List.length_take]
      exact min_le_left _ _
  · intro env qh t u r hl hw1 hw2 hs hr
    cases u
    · simp [run_hmmsearch, hl, hw2, hs, hr]
    · simp [run_hmmsearch, hl, hw1, hs, hr]

/-- C4 (witness): the amended theorem applied to a concrete failing hmmscan
environment (exit code 2, stderr set) and a concrete failing hmmsearch
environment. -/
theorem c4_error_payload_witness :
    (run_hmmscan ⟨⟨"scan.exe", "search.exe", 4, none⟩, ⟨0, "# hmmscan h", ""⟩,
        ⟨2, "ignored", "Error: bad model\n  file truncated"⟩, ShadowOutcome.ok,
        fun s => [⟨s⟩]⟩ "m.hmm" "MKVLA" none none "cached").1 =
      Except.error (PyError.runtimeError
        (hmmscan_error_message ⟨2, "ignored", "Error: bad model\n  file truncated"⟩ "MKVLA")) ∧
    strContains (hmmscan_error_message ⟨2, "ignored", "Error: bad model\n  file truncated"⟩
      "MKVLA") (toString (2 : Int)) = true ∧
    (run_hmmsearch ⟨⟨"scan.exe", "search.exe", 4, none⟩, true,
        some ⟨2, "", "Error: bad model"⟩, true, ShadowOutcome.ok, []⟩ "m.hmm" "MKVLA" false).1 =
      Except.error (PyError.runtimeError ("Running hmmsearch failed.")) := by
  have h := c4_error_payload.1 ⟨⟨"scan.exe", "search.exe", 4, none⟩, ⟨0, "# hmmscan h", ""⟩,
    ⟨2, "ignored", "Error: bad model\n  file truncated"⟩, ShadowOutcome.ok, fun s => [⟨s⟩]⟩
    "m.hmm" "MKVLA" none none "cached" (by decide) (by decide) (by decide)
  exact ⟨h.1, h.2.1, c4_error_payload.2 ⟨⟨"scan.exe", "search.exe", 4, none⟩, true,
    some ⟨2, "", "Error: bad model"⟩, true, ShadowOutcome.ok, []⟩ "m.hmm" "MKVLA" false
    ⟨2, "", "Error: bad model"⟩ rfl rfl rfl rfl rfl⟩

/-- C8 (counterexample): a `run_hmmsearch` invocation whose subprocess exits
with code zero but whose shadow block raises an OSError returns the empty
list, not the parse of the captured raw output (which holds one hit). -/
theorem c8_counterexample :
    (run_hmmsearch ⟨⟨"scan.exe", "search.exe", 4, none⟩, true, some ⟨0, "", ""⟩, true,
        ShadowOutcome.osError, [⟨"hit1"⟩]⟩ "m.hmm" "seq" false).1 = Except.ok [] ∧
    ([] : List QueryResult) ≠ [⟨"hit1"⟩] := by
  exact ⟨by decide, by decide⟩

/-- C8 (amended): when the subprocess exits zero AND the shadow block
completes without raising, the returned hit collection is exactly the external
parser's output on the captured raw tool output (the stdout text for hmmscan,
the domain-table artifact for hmmsearch), with no filtering, deduplication or
reordering by the aggregator; when the shadow block raises an OSError,
`run_hmmsearch` instead returns an empty list. -/
theorem c8_returns_direct_parse :
    (∀ (env : ScanEnv) (target q : String) (opts : Option (List String))
        (rf : Option String) (cache : String),
      q ≠ "" → cache ≠ "" → env.exec_result.successful = true →
      env.shadow = ShadowOutcome.ok →
        (run_hmmscan env target q opts rf cache).1 =
          Except.ok (env.parse_hmmer3_text env.exec_result.stdout)) ∧
    (∀ (env : SearchEnv) (qh t : String) (u : Bool) (r : ExecResult),
      env.exec_launch = some r → env.write_input_ok = true →
      env.write_stdin_copy_ok = true → env.shadow = ShadowOutcome.ok →
      r.successful = true →
        (run_hmmsearch env qh t u).1 = Except.ok env.parse_domtab) := by
  constructor
  · intro env target q opts rf cache hq hc hsucc hs
    simp [run_hmmscan, run_hmmscan_help_cached _ _ _ hc, hq, hsucc, hs]
  · intro env qh t u r hl hw1 hw2 hs hr
    cases u
    · simp [run_hmmsearch, hl, hw2, hs, hr]
    · simp [run_hmmsearch, hl, hw1, hs, hr]

/-- C8 (witness): the amended theorem applied concretely: both executors hand
back exactly what the parser produced. -/
theorem c8_returns_direct_parse_witness :
    (run_hmmscan ⟨⟨"scan.exe", "search.exe", 4, none⟩, ⟨0, "# hmmscan h", ""⟩,
        ⟨0, "raw text", ""⟩, ShadowOutcome.ok, fun s => [⟨s⟩]⟩
        "m.hmm" "MKVLA" none none "cached").1 = Except.ok [⟨"raw text"⟩] ∧
    (run_hmmsearch ⟨⟨"scan.exe", "search.exe", 4, none⟩, true, some ⟨0, "", ""⟩, true,
        ShadowOutcome.ok, [⟨"hit1"⟩, ⟨"hit2"⟩]⟩ "m.hmm" "MKVLA" true).1 =
      Except.ok [⟨"hit1"⟩, ⟨"hit2"⟩] := by
  exact ⟨c8_returns_direct_parse.1 ⟨⟨"scan.exe", "search.exe", 4, none⟩,
      ⟨0, "# hmmscan h", ""⟩, ⟨0, "raw text", ""⟩, ShadowOutcome.ok, fun s => [⟨s⟩]⟩
      "m.hmm" "MKVLA" none none "cached" (by decide) (by decide) (by decide) rfl,
    c8_returns_direct_parse.2 ⟨⟨"scan.exe", "search.exe", 4, none⟩, true, some ⟨0, "", ""⟩,
      true, ShadowOutcome.ok, [⟨"hit1"⟩, ⟨"hit2"⟩]⟩ "m.hmm" "MKVLA" true ⟨0, "", ""⟩
      rfl rfl rfl rfl rfl⟩

theorem run_hmmscan_fail_trace (env : ScanEnv) (target q : String)
    (opts : Option (List String)) (rf : Option String) (cache : String)
    (hq : q ≠ "") (hfail : env.exec_result.successful = false) :
    (run_hmmscan env target q opts rf cache).2.2 =
      (run_hmmscan_help env.config.executables_hmmscan env.help_exec cache).2.2 ++
        (match (run_hmmscan_help env.config.executables_hmmscan env.help_exec cache).1 with
          | Except.error _ => []
          | Except.ok help_text =>
            [Event.launchProcess (hmmscan_command env.config help_text opts target)
              (some q)]) := by
  unfold run_hmmscan
  rw [if_neg hq]
  cases hpres : (run_hmmscan_help env.config.executables_hmmscan env.help_exec cache).1 with
  | error e => simp [hpres]
  | ok ht => simp [hpres, hfail]

/-- C9 (counterexample): in `run_hmmsearch` the shadow search runs even when
the subprocess invocation exits nonzero: with exit code 1 the call raises the
RuntimeError, yet its trace shows the shadow search ran. -/
theorem c9_counterexample :
    (run_hmmsearch ⟨⟨"scan.exe", "search.exe", 4, none⟩, true, some ⟨1, "", "boom"⟩, true,
        ShadowOutcome.ok, []⟩ "m.hmm" "seq" false).1 =
      Except.error (PyError.runtimeError ("Running hmmsearch failed.")) ∧
    Event.ranShadow ("hmmsearch") ∈
      (run_hmmsearch ⟨⟨"scan.exe", "search.exe", 4, none⟩, true, some ⟨1, "", "boom"⟩, true,
        ShadowOutcome.ok, []⟩ "m.hmm" "seq" false).2 := by
  exact ⟨by decide, by decide⟩

/-- C9 (amended): in `run_hmmscan` the shadow search runs only after the
subprocess path succeeded — whenever the trace contains the shadow event, the
subprocess exit code was zero.  In `run_hmmsearch` the shadow block runs as
soon as the external process returns (before the exit-code check), so it runs
regardless of the exit code. -/
theorem c9_shadow_after_success :
    (∀ (env : ScanEnv) (target q : String) (opts : Option (List String))
        (rf : Option String) (cache : String),
      Event.ranShadow ("hmmscan") ∈ (run_hmmscan env target q opts rf cache).2.2 →
        env.exec_result.successful = true) ∧
    (∀ (env : SearchEnv) (qh t : String) (r : ExecResult),
      env.exec_launch = some r → env.write_stdin_copy_ok = true →
        Event.ranShadow ("hmmsearch") ∈ (run_hmmsearch env qh t false).2) := by
  constructor
  · intro env target q opts rf cache hmem
    by_cases hq : q = ""
    · rw [hq] at hmem
      simp [run_hmmscan] at hmem
    · by_cases hsucc : env.exec_result.successful = true
      · exact hsucc
      · exfalso
        have hfail : env.exec_result.successful = false := by
          cases hb : env.exec_result.successful
          · rfl
          · exact absurd hb hsucc
        rw [run_hmmscan_fail_trace env target q opts rf cache hq hfail] at hmem
        rcases List.mem_append.mp hmem with h1 | h2
        · exact run_hmmscan_help_no_shadow _ _ _ h1
        · split at h2
          · simp at h2
          · simp at h2
  · intro env qh t r hl hws
    cases hs : env.shadow <;> cases hr : r.successful <;>
      simp [run_hmmsearch, hl, hws, hs, hr]

/-- C9 (witness): the amended theorem applied concretely: a scan trace that
contains the shadow event forces a zero exit code, and a pipe-mode hmmsearch
call with exit code 1 still ran the shadow search. -/
theorem c9_shadow_after_success_witness :
    ExecResult.successful ⟨0, "raw", ""⟩ = true ∧
    Event.ranShadow ("hmmsearch") ∈
      (run_hmmsearch ⟨⟨"scan.exe", "search.exe", 4, none⟩, true, some ⟨1, "", "boom"⟩, true,
        ShadowOutcome.ok, []⟩ "m.hmm" "seq" false).2 := by
  exact ⟨c9_shadow_after_success.1 ⟨⟨"scan.exe", "search.exe", 4, none⟩,
      ⟨0, "# hmmscan h", ""⟩, ⟨0, "raw", ""⟩, ShadowOutcome.ok, fun s => [⟨s⟩]⟩
      "m.hmm" "MKVLA" none none "cached" (by decide),
    c9_shadow_after_success.2 ⟨⟨"scan.exe", "search.exe", 4, none⟩, true,
      some ⟨1, "", "boom"⟩, true, ShadowOutcome.ok, []⟩ "m.hmm" "seq" ⟨1, "", "boom"⟩
      rfl rfl⟩

/-- C10: whenever an OSError is raised anywhere inside the temporary-directory
block of `run_hmmsearch` — writing the input file, launching the external
process, writing the shadow path's stdin copy, or inside the embedded shadow
search — the function catches it and returns an empty list: nothing is raised
to the caller, and the exit-code check and result parse are skipped (no parse
event ever appears in the trace). -/
theorem c10_oserror_returns_empty :
    ∀ (env : SearchEnv) (qh t : String) (u : Bool),
      hmmsearchRaisesOsError env u = true →
        (run_hmmsearch env qh t u).1 = Except.ok [] ∧
        ∀ f, Event.parsedOutput f ∉ (run_hmmsearch env qh t u).2 := by
  intro env qh t u h
  cases u with
  | false =>
    cases hl : env.exec_launch with
    | none =>
      exact ⟨by simp [run_hmmsearch, hl], fun f => by simp [run_hmmsearch, hl]⟩
    | some r =>
      cases hws : env.write_stdin_copy_ok with
      | false =>
        exact ⟨by simp [run_hmmsearch, hl, hws], fun f => by simp [run_hmmsearch, hl, hws]⟩
      | true =>
        have hs : env.shadow = ShadowOutcome.osError := by
          simp [hmmsearchRaisesOsError, hl, hws] at h
          exact h
        exact ⟨by simp [run_hmmsearch, hl, hws, hs],
          fun f => by simp [run_hmmsearch, hl, hws, hs]⟩
  | true =>
    cases hw : env.write_input_ok with
    | false =>
      exact ⟨by simp [run_hmmsearch, hw], fun f => by simp [run_hmmsearch, hw]⟩
    | true =>
      cases hl : env.exec_launch with
      | none =>
        exact ⟨by simp [run_hmmsearch, hw, hl], fun f => by simp [run_hmmsearch, hw, hl]⟩
      | some r =>
        have hs : env.shadow = ShadowOutcome.osError := by
          simp [hmmsearchRaisesOsError, hw, hl] at h
          exact h
        exact ⟨by simp [run_hmmsearch, hw, hl, hs],
          fun f => by simp [run_hmmsearch, hw, hl, hs]⟩

/-- C10 (witness): the theorem applied to a concrete environment where the
process launch itself raises the OSError (missing binary). -/
theorem c10_oserror_returns_empty_witness :
    hmmsearchRaisesOsError ⟨⟨"scan.exe", "search.exe", 4, none⟩, true, none, true,
        ShadowOutcome.ok, [⟨"hit1"⟩]⟩ false = true ∧
    (run_hmmsearch ⟨⟨"scan.exe", "search.exe", 4, none⟩, true, none, true,
        ShadowOutcome.ok, [⟨"hit1"⟩]⟩ "m.hmm" "seq" false).1 = Except.ok [] ∧
    Event.parsedOutput ("hmmsearch3-domtab") ∉
      (run_hmmsearch ⟨⟨"scan.exe", "search.exe", 4, none⟩, true, none, true,
        ShadowOutcome.ok, [⟨"hit1"⟩]⟩ "m.hmm" "seq" false).2 := by
  have h := c10_oserror_returns_empty ⟨⟨"scan.exe", "search.exe", 4, none⟩, true, none, true,
    ShadowOutcome.ok, [⟨"hit1"⟩]⟩ "m.hmm" "seq" false (by decide)
  exact ⟨by decide, h.1, h.2 ("hmmsearch3-domtab")⟩

end Antismash
